import Mathlib

/-!
Shallow embedding of the memory retrieval core of the `neverland-ai`
memorial-chat service, together with proofs of the specification claims
about it.

The embedded code lives in:
* `app/services/advanced_rag_service.py` — `AdvancedRAGService.search_memories`,
  `_search_with_filter`, `store_memory_with_metadata`,
  `delete_memories_with_filter`, `_get_store_by_type`;
* `app/chains/chat_chain.py` — `MemorySearchStrategy.should_skip_search`,
  `ChatChain._search_memories`;
* `app/api/admin.py` — `delete_memory` (the purge endpoint).

Similarity scores (cosine-scale floats in the source) are modelled as
rationals; the vector backend (Qdrant filtered top-k search) is modelled by
its documented semantics: return the `k` highest-scoring stored points among
those matching the metadata filter.
-/

namespace Neverland

/-- A stored memory point: the payload fields of a Qdrant document as written
by `store_memory` / `store_memory_with_metadata` (page content plus the
metadata keys the retrieval and deletion paths read). -/
structure MemoryRecord where
  content   : String
  authKeyId : String
  tags      : List String
  item_id   : String
  item_type : String
  date      : String
deriving DecidableEq, Repr

/-- One entry of the list built by `_search_with_filter`: the document, the
collection name it came from, and the similarity score the store returned.
(`date_text`, a rendering of `date` against the wall clock, is not modelled.) -/
structure SearchResult where
  record     : MemoryRecord
  collection : String
  score      : ℚ
deriving DecidableEq, Repr

/-! ### Stable descending sort by a rational key

`sorted(..., key=..., reverse=True)` in Python is a stable descending sort;
we model it by insertion sort that keeps an earlier element in front of a
later one with an equal key. -/

def insertDescBy {α : Type} (f : α → ℚ) (x : α) : List α → List α
  | [] => [x]
  | y :: ys => if f y ≤ f x then x :: y :: ys else y :: insertDescBy f x ys

def sortDescBy {α : Type} (f : α → ℚ) : List α → List α
  | [] => []
  | x :: xs => insertDescBy f x (sortDescBy f xs)

theorem mem_insertDescBy {α : Type} (f : α → ℚ) (x a : α) (l : List α) :
    a ∈ insertDescBy f x l ↔ a = x ∨ a ∈ l := by
  induction l with
  | nil => simp [insertDescBy]
  | cons y ys ih =>
    by_cases h : f y ≤ f x
    · simp [insertDescBy, h]
    · simp only [insertDescBy, if_neg h, List.mem_cons, ih]
      tauto

theorem mem_sortDescBy {α : Type} (f : α → ℚ) (a : α) (l : List α) :
    a ∈ sortDescBy f l ↔ a ∈ l := by
  induction l with
  | nil => simp [sortDescBy]
  | cons y ys ih => simp [sortDescBy, mem_insertDescBy, ih]

theorem sorted_insertDescBy {α : Type} (f : α → ℚ) (x : α) (l : List α)
    (h : l.Pairwise (fun a b => f b ≤ f a)) :
    (insertDescBy f x l).Pairwise (fun a b => f b ≤ f a) := by
  induction l with
  | nil => simp [insertDescBy]
  | cons y ys ih =>
    rcases List.pairwise_cons.mp h with ⟨hy, hys⟩
    by_cases hle : f y ≤ f x
    · rw [insertDescBy, if_pos hle]
      refine List.pairwise_cons.mpr ⟨?_, h⟩
      intro b hb
      rcases List.mem_cons.mp hb with rfl | hb
      · exact hle
      · exact le_trans (hy b hb) hle
    · rw [insertDescBy, if_neg hle]
      refine List.pairwise_cons.mpr ⟨?_, ih hys⟩
      intro b hb
      rcases (mem_insertDescBy f x b ys).mp hb with rfl | hb
      · exact le_of_not_le hle
      · exact hy b hb

theorem sorted_sortDescBy {α : Type} (f : α → ℚ) (l : List α) :
    (sortDescBy f l).Pairwise (fun a b => f b ≤ f a) := by
  induction l with
  | nil => simp [sortDescBy]
  | cons y ys ih => exact sorted_insertDescBy f y _ ih

/-! ### Python string primitives

`str.strip()`, `str.lower()` and `str.split()` (whitespace split, empties
dropped) modelled by structural recursion over the character list.
`lower` is the identity on the Korean and lowercase-ASCII inputs these
code paths handle; ASCII letters are mapped as Python does. -/

def stripChars (cs : List Char) : List Char :=
  ((cs.dropWhile Char.isWhitespace).reverse.dropWhile Char.isWhitespace).reverse

def pyStrip (s : String) : String := ⟨stripChars s.data⟩

def pyLower (s : String) : String := ⟨s.data.map Char.toLower⟩

def splitWsAux : List Char → List Char → List String
  | [], acc => if acc.isEmpty then [] else [⟨acc.reverse⟩]
  | c :: cs, acc =>
      if c.isWhitespace then
        if acc.isEmpty then splitWsAux cs [] else ⟨acc.reverse⟩ :: splitWsAux cs []
      else splitWsAux cs (c :: acc)

def pySplit (s : String) : List String := splitWsAux s.data []

/-! ### The vector-store partition

`_search_with_filter` calls `store.asimilarity_search_with_score(query, k,
filter=auth_filter)` where `auth_filter` is the Qdrant filter
`must [FieldCondition(key="metadata.authKeyId", match=MatchValue(authKeyId))]`.
The backend's semantics: among the stored points whose metadata satisfies the
filter, return the `k` with the highest similarity to the query, best first.
Similarity of each stored record to the query text is abstracted as a
function `sim : MemoryRecord → ℚ`. -/

def qdrantFilteredSearch (store : List MemoryRecord) (sim : MemoryRecord → ℚ)
    (authKeyId : String) (k : Nat) : List (MemoryRecord × ℚ) :=
  (sortDescBy Prod.snd
    ((store.filter (fun r => r.authKeyId = authKeyId)).map (fun r => (r, sim r)))).take k

/-- `AdvancedRAGService._search_with_filter`: run the filtered similarity
search on one collection and wrap each `(doc, score)` pair into a result
dict carrying the collection name.  (The surrounding `try/except` that maps
a backend exception to `[]` is modelled at the orchestrator level by the
`POutcome.err` case below.) -/
def searchWithFilter (store : List MemoryRecord) (sim : MemoryRecord → ℚ)
    (authKeyId : String) (k : Nat) (collectionName : String) : List SearchResult :=
  (qdrantFilteredSearch store sim authKeyId k).map
    (fun p => { record := p.1, collection := collectionName, score := p.2 })

/-! ### The orchestrator: `AdvancedRAGService.search_memories`

Constants from `__init__`. -/

def RELEVANCE_THRESHOLD : ℚ := mkRat 3 10
def MAX_SEARCH_RESULTS : Nat := 3

theorem RELEVANCE_THRESHOLD_eq : RELEVANCE_THRESHOLD = 3 / 10 := by
  rw [RELEVANCE_THRESHOLD, Rat.mkRat_eq_div]; norm_num

/-- Outcome of one partition task as seen by
`asyncio.wait_for(asyncio.gather(*tasks, return_exceptions=True), timeout)`:
the task resolved with a list, the task resolved with an exception, or the
task was still pending when the overall timeout elapsed. -/
inductive POutcome
  | ok (rs : List SearchResult)
  | err
  | pending
deriving DecidableEq, Repr

def POutcome.isPending : POutcome → Bool
  | .pending => true
  | _ => false

/-- The gather-and-merge step of `search_memories` (lines 148–164): if any
task is still pending the `asyncio.wait_for` raises `TimeoutError` and the
handler sets `search_results = []`; otherwise every task's outcome is walked
in order, lists are concatenated with `extend` and exceptions are skipped. -/
def gatherMerge (outs : List POutcome) : List SearchResult :=
  if outs.any POutcome.isPending then []
  else outs.foldr (fun o acc => match o with | .ok rs => rs ++ acc | _ => acc) []

/-- The rank step of `search_memories` (lines 168–182): keep results with
`score >= RELEVANCE_THRESHOLD`, sort descending by score, truncate to
`MAX_SEARCH_RESULTS`. -/
def rankResults (allResults : List SearchResult) : List SearchResult :=
  (sortDescBy SearchResult.score
    (allResults.filter (fun r => RELEVANCE_THRESHOLD ≤ r.score))).take MAX_SEARCH_RESULTS

/-- `search_memories` after input validation, parameterised by the three
partition outcomes (in task-creation order letter, object, daily).  Empty or
whitespace-only query, or empty authKeyId, short-circuits to `[]`. -/
def searchMemoriesCore (query authKeyId : String) (outs : List POutcome) :
    List SearchResult :=
  if pyStrip query = "" then []
  else if authKeyId = "" then []
  else rankResults (gatherMerge outs)

/-- `search_memories` on the fault-free path: each of the three collections
(letter, object, daily) is queried through `_search_with_filter` with the
`metadata.authKeyId` equality filter attached. -/
def searchMemories (query authKeyId : String)
    (letterStore objectStore dailyStore : List MemoryRecord)
    (sim : MemoryRecord → ℚ) : List SearchResult :=
  searchMemoriesCore query authKeyId
    [ .ok (searchWithFilter letterStore sim authKeyId MAX_SEARCH_RESULTS "letter"),
      .ok (searchWithFilter objectStore sim authKeyId MAX_SEARCH_RESULTS "object"),
      .ok (searchWithFilter dailyStore sim authKeyId MAX_SEARCH_RESULTS "daily") ]

/-- The collections to which `search_memories` issues a partition query:
after the two validation early-returns, a task per store is always created
(lines 135–146); there is no cache consulted beforehand. -/
def partitionQueriesIssued (query authKeyId : String) : List String :=
  if pyStrip query = "" then []
  else if authKeyId = "" then []
  else ["letter", "object", "daily"]

/-! ### Membership lemmas for the search pipeline -/

theorem mem_qdrantFilteredSearch (store : List MemoryRecord) (sim : MemoryRecord → ℚ)
    (authKeyId : String) (k : Nat) (p : MemoryRecord × ℚ)
    (hp : p ∈ qdrantFilteredSearch store sim authKeyId k) :
    p.1 ∈ store ∧ p.1.authKeyId = authKeyId ∧ p.2 = sim p.1 := by
  have h1 := List.mem_of_mem_take hp
  rw [mem_sortDescBy] at h1
  rcases List.mem_map.mp h1 with ⟨r, hr, rfl⟩
  rcases List.mem_filter.mp hr with ⟨hmem, hauth⟩
  exact ⟨hmem, of_decide_eq_true hauth, rfl⟩

theorem mem_searchWithFilter (store : List MemoryRecord) (sim : MemoryRecord → ℚ)
    (authKeyId : String) (k : Nat) (collectionName : String) (res : SearchResult)
    (hres : res ∈ searchWithFilter store sim authKeyId k collectionName) :
    res.record ∈ store ∧ res.record.authKeyId = authKeyId ∧ res.score = sim res.record := by
  rcases List.mem_map.mp hres with ⟨p, hp, rfl⟩
  exact mem_qdrantFilteredSearch store sim authKeyId k p hp

theorem mem_gatherMerge (outs : List POutcome) (res : SearchResult)
    (h : res ∈ gatherMerge outs) :
    ∃ rs, POutcome.ok rs ∈ outs ∧ res ∈ rs := by
  unfold gatherMerge at h
  by_cases hp : outs.any POutcome.isPending
  · rw [if_pos hp] at h
    exact absurd h (List.not_mem_nil res)
  · rw [if_neg hp] at h
    clear hp
    induction outs with
    | nil => exact absurd h (List.not_mem_nil res)
    | cons o os ih =>
      cases o with
      | ok rs =>
        rcases List.mem_append.mp h with h1 | h2
        · exact ⟨rs, List.mem_cons_self _ _, h1⟩
        · rcases ih h2 with ⟨rs', hrs', hres'⟩
          exact ⟨rs', List.mem_cons_of_mem _ hrs', hres'⟩
      | err =>
        rcases ih h with ⟨rs', hrs', hres'⟩
        exact ⟨rs', List.mem_cons_of_mem _ hrs', hres'⟩
      | pending =>
        rcases ih h with ⟨rs', hrs', hres'⟩
        exact ⟨rs', List.mem_cons_of_mem _ hrs', hres'⟩

theorem mem_rankResults (allResults : List SearchResult) (res : SearchResult)
    (h : res ∈ rankResults allResults) :
    res ∈ allResults ∧ RELEVANCE_THRESHOLD ≤ res.score := by
  have h1 := List.mem_of_mem_take h
  rw [mem_sortDescBy] at h1
  rcases List.mem_filter.mp h1 with ⟨hmem, hsc⟩
  exact ⟨hmem, of_decide_eq_true hsc⟩

theorem mem_searchMemoriesCore (query authKeyId : String) (outs : List POutcome)
    (res : SearchResult) (h : res ∈ searchMemoriesCore query authKeyId outs) :
    res ∈ gatherMerge outs ∧ RELEVANCE_THRESHOLD ≤ res.score := by
  unfold searchMemoriesCore at h
  by_cases h1 : pyStrip query = ""
  · rw [if_pos h1] at h; exact absurd h (List.not_mem_nil res)
  · rw [if_neg h1] at h
    by_cases h2 : authKeyId = ""
    · rw [if_pos h2] at h; exact absurd h (List.not_mem_nil res)
    · rw [if_neg h2] at h
      exact mem_rankResults _ res h

theorem mem_searchMemories (query authKeyId : String)
    (letterStore objectStore dailyStore : List MemoryRecord) (sim : MemoryRecord → ℚ)
    (res : SearchResult)
    (h : res ∈ searchMemories query authKeyId letterStore objectStore dailyStore sim) :
    res.record.authKeyId = authKeyId ∧ RELEVANCE_THRESHOLD ≤ res.score ∧
      res.score = sim res.record ∧
      (res.record ∈ letterStore ∨ res.record ∈ objectStore ∨ res.record ∈ dailyStore) := by
  rcases mem_searchMemoriesCore _ _ _ res h with ⟨hg, hsc⟩
  rcases mem_gatherMerge _ res hg with ⟨rs, hrs, hres⟩
  simp only [List.mem_cons, List.not_mem_nil, or_false] at hrs
  rcases hrs with h1 | h2 | h3
  · obtain rfl : rs = _ := POutcome.ok.inj h1
    rcases mem_searchWithFilter _ sim authKeyId _ _ res hres with ⟨hm, ha, hs⟩
    exact ⟨ha, hsc, hs, Or.inl hm⟩
  · obtain rfl : rs = _ := POutcome.ok.inj h2
    rcases mem_searchWithFilter _ sim authKeyId _ _ res hres with ⟨hm, ha, hs⟩
    exact ⟨ha, hsc, hs, Or.inr (Or.inl hm)⟩
  · obtain rfl : rs = _ := POutcome.ok.inj h3
    rcases mem_searchWithFilter _ sim authKeyId _ _ res hres with ⟨hm, ha, hs⟩
    exact ⟨ha, hsc, hs, Or.inr (Or.inr hm)⟩

/-! ### Concrete sample data used by witnesses -/

def recOwnerA : MemoryRecord :=
  { content := "엄마 생일에 미역국을 끓였다", authKeyId := "ownerA",
    tags := ["생일", "미역국"], item_id := "keepsake_2024-05-01_ab",
    item_type := "keepsake", date := "2024-05-01" }

def recOwnerB : MemoryRecord :=
  { content := "아빠와 바다에 갔다", authKeyId := "ownerB",
    tags := ["바다"], item_id := "photo_2024-06-01_cd",
    item_type := "photo", date := "2024-06-01" }

def simHalf : MemoryRecord → ℚ := fun _ => mkRat 1 2

/-- Claim C1 (tenant isolation): every partition query carries the
`metadata.authKeyId == B` equality filter, so every result of
`search_memories(query, B)` belongs to owner `B` and a record stored under a
distinct owner key `A` never appears among the results. -/
theorem tenant_isolation (query A B : String) (hAB : A ≠ B)
    (letterStore objectStore dailyStore : List MemoryRecord) (sim : MemoryRecord → ℚ)
    (r : MemoryRecord) (hr : r.authKeyId = A) (res : SearchResult)
    (hres : res ∈ searchMemories query B letterStore objectStore dailyStore sim) :
    res.record.authKeyId = B ∧ res.record ≠ r := by
  have h := mem_searchMemories query B letterStore objectStore dailyStore sim res hres
  refine ⟨h.1, fun heq => hAB ?_⟩
  rw [← hr, ← heq, h.1]

/-- Witness for C1 at a concrete input: with owner A's and owner B's records
both stored in the letter partition, a search for owner B returns a result
owned by B that is not A's record. -/
theorem tenant_isolation_witness :
    ({ record := recOwnerB, collection := "letter", score := mkRat 1 2 } :
      SearchResult).record.authKeyId = "ownerB" ∧
    ({ record := recOwnerB, collection := "letter", score := mkRat 1 2 } :
      SearchResult).record ≠ recOwnerA :=
  tenant_isolation "생일 기억" "ownerA" "ownerB" (by decide)
    [recOwnerA, recOwnerB] [] [] simHalf recOwnerA rfl _ (by decide)

/-- Claim C2 (relevance threshold): a candidate whose similarity score is below
`RELEVANCE_THRESHOLD = 3/10` never appears in the list returned by
`search_memories`; every returned entry scores at least `3/10`. -/
theorem relevance_threshold (query authKeyId : String) (outs : List POutcome)
    (res : SearchResult) (h : res ∈ searchMemoriesCore query authKeyId outs) :
    (3 / 10 : ℚ) ≤ res.score ∧ RELEVANCE_THRESHOLD = 3 / 10 := by
  refine ⟨?_, RELEVANCE_THRESHOLD_eq⟩
  rw [← RELEVANCE_THRESHOLD_eq]
  exact (mem_searchMemoriesCore query authKeyId outs res h).2

/-- Witness for C2 at a concrete input: a concrete returned result scores at
least the threshold. -/
theorem relevance_threshold_witness :
    (3 / 10 : ℚ) ≤ ({ record := recOwnerB, collection := "letter", score := mkRat 1 2 } :
      SearchResult).score ∧ RELEVANCE_THRESHOLD = 3 / 10 :=
  relevance_threshold "생일" "ownerB"
    [.ok [{ record := recOwnerB, collection := "letter", score := mkRat 1 2 }], .ok [], .ok []]
    _ (by decide)

/-- A sorted prefix stays sorted: `take` of a pairwise-sorted list. -/
theorem pairwise_take {α : Type} (R : α → α → Prop) (n : Nat) (l : List α)
    (h : l.Pairwise R) : (l.take n).Pairwise R :=
  List.Pairwise.sublist (List.take_sublist n l) h

def recBirthday : MemoryRecord :=
  { content := "엄마 생일에 미역국을 끓여 먹었다", authKeyId := "owner1",
    tags := ["생일", "미역국"], item_id := "keepsake_2024-05-01_xy",
    item_type := "keepsake", date := "2024-05-01" }

/-- Claim C3 counterexample: with the record tagged `["생일","미역국"]` and query
`"엄마 생일에 뭐 했지"`, `search_memories` returns the record with its raw
similarity score (1/2) unchanged — not raw + 0.10 as the claim states: no
tag-overlap bonus exists anywhere in the ranking code. -/
theorem tag_boost_counterexample :
    (searchMemories "엄마 생일에 뭐 했지" "owner1" [] [recBirthday] [] simHalf).map
        SearchResult.score = [mkRat 1 2] ∧
    (mkRat 1 2 : ℚ) ≠ mkRat 1 2 + 1 / 10 := by
  constructor
  · decide
  · rw [Rat.mkRat_eq_div]; norm_num

/-- Claim C3 amended: the final score of every entry returned by `search_memories`
equals the raw similarity score the vector store reported for its record —
no tag bonus is ever added — and the merged output is ordered descending by
this raw score. -/
theorem no_tag_boost (query authKeyId : String)
    (letterStore objectStore dailyStore : List MemoryRecord) (sim : MemoryRecord → ℚ) :
    (∀ res ∈ searchMemories query authKeyId letterStore objectStore dailyStore sim,
      res.score = sim res.record) ∧
    (searchMemories query authKeyId letterStore objectStore dailyStore sim).Pairwise
      (fun a b => b.score ≤ a.score) := by
  constructor
  · intro res hres
    exact (mem_searchMemories query authKeyId letterStore objectStore dailyStore sim
      res hres).2.2.1
  · unfold searchMemories searchMemoriesCore
    split
    · exact List.Pairwise.nil
    · split
      · exact List.Pairwise.nil
      · exact pairwise_take _ _ _ (sorted_sortDescBy _ _)

/-- Witness for C3's amended claim at the concrete input from the spec's
example: the returned entry's score is the raw similarity of its record. -/
theorem no_tag_boost_witness :
    ({ record := recBirthday, collection := "object", score := mkRat 1 2 } :
      SearchResult).score = simHalf recBirthday :=
  (no_tag_boost "엄마 생일에 뭐 했지" "owner1" [] [recBirthday] [] simHalf).1 _ (by decide)

/-- Claim C4: evaluation of `search_memories` at the failing input.  The letter
partition resolved before the timeout with a high-scoring result, the daily
partition was still pending when `SEARCH_TIMEOUT` elapsed; the claim (and the
code's own log line, "부분 결과 반환") says the resolved partition's results
are returned, but the `TimeoutError` handler sets `search_results = []`, so
every partial result is discarded and the empty list is returned (no error is
raised to the caller). -/
theorem timeout_discards_resolved_results :
    searchMemoriesCore "엄마 생일" "owner1"
      [.ok [{ record := recBirthday, collection := "letter", score := mkRat 9 10 }],
       .ok [], .pending] = [] := by
  decide

/-- Claim C5 (retrieval is a soft dependency): a partition whose task resolves with
an exception contributes exactly zero results — `search_memories` on outcomes
with an erroring partition equals `search_memories` with that partition
returning the empty list, the other partitions' results still merged.
`search_memories` itself is total here because its body is wrapped in
`try/except` returning `[]`; it returns a list in every case. -/
theorem partition_fault_isolation (query authKeyId : String)
    (pre post : List POutcome) :
    searchMemoriesCore query authKeyId (pre ++ POutcome.err :: post) =
      searchMemoriesCore query authKeyId (pre ++ POutcome.ok [] :: post) := by
  have hg : gatherMerge (pre ++ POutcome.err :: post) =
      gatherMerge (pre ++ POutcome.ok [] :: post) := by
    unfold gatherMerge
    have hany : (pre ++ POutcome.err :: post).any POutcome.isPending =
        (pre ++ POutcome.ok [] :: post).any POutcome.isPending := by
      simp [List.any_append, POutcome.isPending]
    rw [hany]
    split
    · rfl
    · simp [List.foldr_append]
  unfold searchMemoriesCore
  rw [hg]

/-- Claim C6 counterexample: `search_memories` consults no result cache — a second
call with the same near-duplicate query for the same owner (here, the second
of two calls to `search("엄마 생일", owner)`) still issues partition queries
to all three collections, contradicting "served from the per-owner Result
Cache without issuing any partition query".  (`search_memories` keeps no
state between calls, so every call behaves like the first.) -/
theorem result_cache_counterexample :
    partitionQueriesIssued "엄마 생일" "owner1" = ["letter", "object", "daily"] ∧
    partitionQueriesIssued "엄마 생일" "owner1" ≠ ([] : List String) := by
  exact ⟨by decide, by decide⟩

/-- Claim C6 amended: `search_memories` maintains no result cache; every call with
a nonempty (after strip) query and a nonempty owner key issues fresh
partition queries to all three collections.  Repeated identical calls return
equal results only because the function is deterministic. -/
theorem no_result_cache (query authKeyId : String)
    (hq : pyStrip query ≠ "") (ha : authKeyId ≠ "") :
    partitionQueriesIssued query authKeyId = ["letter", "object", "daily"] := by
  unfold partitionQueriesIssued
  rw [if_neg hq, if_neg ha]

/-- Witness for C6's amended claim: the concrete repeated query issues the
three partition queries. -/
theorem no_result_cache_witness :
    partitionQueriesIssued "엄마 생일" "owner1" = ["letter", "object", "daily"] :=
  no_result_cache "엄마 생일" "owner1" (by decide) (by decide)

/-! ### The Search Gate: `MemorySearchStrategy.should_skip_search`
(`app/chains/chat_chain.py`, lines 182–212) -/

/-- A message of the session history (`HumanMessage` / `AIMessage`). -/
inductive ChatMsg
  | human (content : String)
  | ai (content : String)
deriving DecidableEq, Repr

def SKIP_KEYWORDS : List String :=
  ["응", "그래", "알겠어", "고마워", "ㅎㅎ", "ㅋㅋ", "잘자", "하하", "헐", "음",
   "으응", "응응", "어"]

def SIMILARITY_THRESHOLD : ℚ := mkRat 6 10

/-- `[m.content.lower() for m in reversed(history.messages[-50:]) if
isinstance(m, AIMessage)]`: the lowercased assistant outputs among the last
50 messages, newest first. -/
def recentAiMsgs (history : List ChatMsg) : List String :=
  ((history.reverse.take 50).filterMap
    (fun m => match m with | .ai c => some (pyLower c) | .human _ => none))

/-- `MemorySearchStrategy.should_skip_search`.  The word-overlap ratio
`len(overlap) / max(len(user_keywords), 1)` (an exact rational here; the
source computes it in floating point) is taken over the **user's** word set,
and is compared against every recent assistant output. -/
def should_skip_search (user_input : String) (history : List ChatMsg) : Bool :=
  let cleaned := pyLower (pyStrip user_input)
  if cleaned.length ≤ 2 ∨ cleaned ∈ SKIP_KEYWORDS then true
  else
    let user_keywords := (pySplit cleaned).dedup
    (recentAiMsgs history).any (fun msg =>
      let msg_words := (pySplit msg).dedup
      let overlap := user_keywords.filter (fun w => w ∈ msg_words)
      SIMILARITY_THRESHOLD ≤ mkRat overlap.length (max user_keywords.length 1))

/-- The near-duplicate condition as the claim words it (for refinement
comparison only, not from the source): word-overlap ratio computed over the
smaller of the two word sets. -/
def claimSmallerSetNearDuplicate (user_input : String) (history : List ChatMsg) : Bool :=
  let cleaned := pyLower (pyStrip user_input)
  let user_keywords := (pySplit cleaned).dedup
  (recentAiMsgs history).any (fun msg =>
    let msg_words := (pySplit msg).dedup
    let overlap := user_keywords.filter (fun w => w ∈ msg_words)
    SIMILARITY_THRESHOLD ≤
      mkRat overlap.length (max (min user_keywords.length msg_words.length) 1))

/-- Claim C7 counterexample: for the five-word query against the recent assistant
output "바다", the overlap ratio over the smaller word set is 1/1 ≥ 0.6, so
the claim says the search is skipped; the code divides by the user's word
set (ratio 1/5 < 0.6) and does not skip. -/
theorem search_gate_counterexample :
    should_skip_search "바다 노을 사진 기억 나" [ChatMsg.ai "바다"] = false ∧
    claimSmallerSetNearDuplicate "바다 노을 사진 기억 나" [ChatMsg.ai "바다"] = true := by
  exact ⟨by decide, by decide⟩

/-- Claim C7 amended: `should_skip_search` returns `true` exactly when (1) the
stripped, lowercased input has length ≤ 2, or (2) it is one of the configured
fillers, or (3) its word-overlap ratio with some recent assistant output —
computed over the user's word set, `len(overlap)/max(len(user_words),1)` —
is ≥ 0.6 (there is no cached-previous-query comparison and no 30-second
window).  In particular `"고마워"` skips the search and
`"엄마랑 갔던 그 바다 기억나?"` does not. -/
theorem search_gate_decision :
    should_skip_search "고마워" [] = true ∧
    should_skip_search "엄마랑 갔던 그 바다 기억나?" [] = false ∧
    (∀ (user_input : String) (history : List ChatMsg),
      should_skip_search user_input history = true ↔
        ((pyLower (pyStrip user_input)).length ≤ 2 ∨
         pyLower (pyStrip user_input) ∈ SKIP_KEYWORDS ∨
         ∃ msg ∈ recentAiMsgs history,
           SIMILARITY_THRESHOLD ≤
             mkRat (((pySplit (pyLower (pyStrip user_input))).dedup).filter
                 (fun w => w ∈ (pySplit msg).dedup)).length
               (max ((pySplit (pyLower (pyStrip user_input))).dedup).length 1))) := by
  refine ⟨by decide, by decide, ?_⟩
  intro user_input history
  unfold should_skip_search
  by_cases h : (pyLower (pyStrip user_input)).length ≤ 2 ∨
      pyLower (pyStrip user_input) ∈ SKIP_KEYWORDS
  · simp only [if_pos h]
    constructor
    · intro _
      rcases h with h | h
      · exact Or.inl h
      · exact Or.inr (Or.inl h)
    · intro _; trivial
  · simp only [if_neg h]
    rw [List.any_eq_true]
    constructor
    · rintro ⟨msg, hmsg, hle⟩
      rw [decide_eq_true_eq] at hle
      exact Or.inr (Or.inr ⟨msg, hmsg, hle⟩)
    · rintro (h1 | h2 | ⟨msg, hmsg, hle⟩)
      · exact absurd (Or.inl h1) h
      · exact absurd (Or.inr h2) h
      · exact ⟨msg, hmsg, decide_eq_true_eq.mpr hle⟩

/-- Witness for C7's amended claim: the skip case of the characterization at
the concrete filler input. -/
theorem search_gate_decision_witness :
    should_skip_search "고마워" ([] : List ChatMsg) = true :=
  search_gate_decision.1

/-! ### Storage routing and administrative deletion
(`app/api/admin.py` with the `DeleteRequest` schema from
`app/schemas/commons_schemas.py`, `AdvancedRAGService.delete_memories_with_filter`,
`_get_store_by_type`, `store_memory_with_metadata`; collection names from
`app/config.py`) -/

def daily_conversation_collection : String := "daily_conversations"
def letter_memory_collection : String := "letter_memories"
def object_memory_collection : String := "object_memories"

/-- The three Qdrant collections' contents. -/
structure Stores where
  letter : List MemoryRecord
  object : List MemoryRecord
  daily  : List MemoryRecord
deriving DecidableEq, Repr

/-- `MEMORY_COLLECTION_MAP.get(item_type)` from `app/api/admin.py`:
letter/keepsake/photo only — the daily conversation collection is absent by
design ("chat은 제외"). -/
def MEMORY_COLLECTION_MAP (item_type : String) : Option String :=
  if item_type = "letter" then some letter_memory_collection
  else if item_type = "keepsake" then some object_memory_collection
  else if item_type = "photo" then some object_memory_collection
  else none

/-- The delete filter the admin handler writes down (equality on
`metadata.authKeyId`, `metadata.item_id` and `metadata.item_type`), as
`delete_memories_with_filter` would apply it to a collection. -/
def matchesDeleteFilter (authKeyId item_id item_type : String)
    (r : MemoryRecord) : Bool :=
  decide (r.authKeyId = authKeyId) && decide (r.item_id = item_id) &&
    decide (r.item_type = item_type)

/-- `AdvancedRAGService.delete_memories_with_filter` on one collection:
`store.adelete(filter=...)` removes every point matching the filter, and the
function returns the hardcoded count `1` on success; if the backend call
raises, the `except` branch returns `0` (and nothing was deleted). -/
def delete_memories_with_filter (records : List MemoryRecord)
    (authKeyId item_id item_type : String) (backendOk : Bool) :
    List MemoryRecord × Nat :=
  if backendOk then
    (records.filter (fun r => !(matchesDeleteFilter authKeyId item_id item_type r)), 1)
  else (records, 0)

/-- The shape of the purge endpoint success response (`DeleteResponse`): the
stores after deletion, the reported `deleted_count`, and
`deleted_from_collections`.  In the current source no request reaches it
(see `delete_memory` below). -/
structure DeleteOutcome where
  stores        : Stores
  deleted_count : Nat
  collections   : List String
deriving DecidableEq, Repr

/-- `delete_memory` (`app/api/admin.py`): reject `item_type == "chat"`
outright; reject any `item_type` absent from `MEMORY_COLLECTION_MAP`.  On a
mapped type the handler then builds its delete filter from
`request.authKeyId` — but `DeleteRequest`
(`app/schemas/commons_schemas.py`) declares only `item_id`, `item_type` and
`user_id`, so this attribute access raises `AttributeError` before any
partition delete is issued; the catch-all `except Exception` re-raises it as
an HTTP 500.  No request through this endpoint ever reaches
`delete_memories_with_filter`, so the stores are returned only inside the
(unreachable) `DeleteOutcome`.  `user_id` and `item_id` are the request
fields; `backendOk` is the status the unreachable backend call would see. -/
def delete_memory (item_type _user_id _item_id : String) (_stores : Stores)
    (_backendOk : Bool) : Except String DeleteOutcome :=
  if item_type = "chat" then
    Except.error "chat 유형의 기억은 삭제할 수 없습니다."
  else
    match MEMORY_COLLECTION_MAP item_type with
    | none => Except.error ("지원하지 않는 item_type: " ++ item_type)
    | some _ =>
        Except.error "AttributeError: DeleteRequest object has no attribute authKeyId"

/-- `AdvancedRAGService._get_store_by_type`: letter → letter store,
keepsake/photo → object store, anything else → the daily conversation
store (the final `else` is a catch-all). -/
def _get_store_by_type (memory_type : String) : String :=
  if memory_type = "letter" then letter_memory_collection
  else if memory_type = "keepsake" ∨ memory_type = "photo" then
    object_memory_collection
  else daily_conversation_collection

/-- `AdvancedRAGService.store_memory_with_metadata`: build the document and
`aadd_documents` it into the store chosen by `_get_store_by_type`; the
returned dict is `{"status": "stored", "collection": store.collection_name}`.
(The metadata assembly — `id`, `memory_type`, `created_at` — is carried
inside `rec`; it does not affect routing.) -/
def store_memory_with_metadata (stores : Stores) (rec : MemoryRecord)
    (memory_type : String) : Stores × String × String :=
  let c := _get_store_by_type memory_type
  if c = letter_memory_collection then
    ({ stores with letter := stores.letter ++ [rec] }, "stored", c)
  else if c = object_memory_collection then
    ({ stores with object := stores.object ++ [rec] }, "stored", c)
  else
    ({ stores with daily := stores.daily ++ [rec] }, "stored", c)

/-- Any request with a mapped item type dies on the `request.authKeyId`
attribute access, regardless of the stores or the backend. -/
theorem delete_memory_mapped (t user_id item_id : String) (stores : Stores)
    (backendOk : Bool) (c : String) (hmap : MEMORY_COLLECTION_MAP t = some c)
    (h1 : t ≠ "chat") :
    delete_memory t user_id item_id stores backendOk =
      Except.error "AttributeError: DeleteRequest object has no attribute authKeyId" := by
  unfold delete_memory
  rw [if_neg h1, hmap]

theorem delete_memory_none (t user_id item_id : String) (stores : Stores)
    (backendOk : Bool) (h1 : t ≠ "chat") (hmap : MEMORY_COLLECTION_MAP t = none) :
    delete_memory t user_id item_id stores backendOk =
      Except.error ("지원하지 않는 item_type: " ++ t) := by
  unfold delete_memory
  rw [if_neg h1, hmap]

theorem delete_memory_unknown (t authKeyId item_id : String) (stores : Stores)
    (backendOk : Bool) (h1 : t ≠ "chat") (h2 : t ≠ "letter") (h3 : t ≠ "keepsake")
    (h4 : t ≠ "photo") :
    delete_memory t authKeyId item_id stores backendOk =
      Except.error ("지원하지 않는 item_type: " ++ t) := by
  unfold delete_memory
  rw [if_neg h1]
  have hmap : MEMORY_COLLECTION_MAP t = none := by
    unfold MEMORY_COLLECTION_MAP
    rw [if_neg h2, if_neg h3, if_neg h4]
  rw [hmap]

def recOtherOwner : MemoryRecord :=
  { content := "다른 주인의 유품", authKeyId := "owner2", tags := [],
    item_id := "keepsake_2024-05-01_xy", item_type := "keepsake",
    date := "2024-05-01" }

def storesW : Stores := { letter := [], object := [recBirthday, recOtherOwner], daily := [] }

/-- Claim C8: evaluation of the purge endpoint at the failing input — a
`DeleteRequest` with `item_type = "keepsake"`, `item_id =
"keepsake_2024-05-01_xy"`, `user_id = "owner1"`, with a matching record
stored in the object collection.  The chat check and the collection mapping
pass, then the handler reads `request.authKeyId`, a field `DeleteRequest`
does not declare, so the request fails with an `AttributeError` converted to
an HTTP 500: no record is deleted and no deleted count is reported, while
the claim promises deletion of exactly the matching records with the actual
count (zero when nothing matches).  Behind that slip sits a second one: the
service-level `delete_memories_with_filter` returns the hardcoded count `1`
on every successful backend call — even one that matched nothing — never
the number of records actually deleted. -/
theorem purge_endpoint_attribute_error :
    delete_memory "keepsake" "owner1" "keepsake_2024-05-01_xy" storesW true =
      Except.error "AttributeError: DeleteRequest object has no attribute authKeyId" ∧
    (delete_memories_with_filter ([] : List MemoryRecord) "owner1"
        "keepsake_2024-05-01_xy" "keepsake" true).2 = 1 ∧ (1 : Nat) ≠ 0 :=
  ⟨rfl, rfl, by decide⟩

/-- Claim C9: a purge request with the conversation item type ("chat") is rejected
with an explicit error before any partition delete, and no successful purge
through this endpoint ever touches the daily-conversation collection: the
daily store is unchanged in every `ok` outcome and the reported deleted
collection is never the daily one. -/
theorem chat_purge_rejected (authKeyId item_id : String) (stores : Stores)
    (backendOk : Bool) :
    delete_memory "chat" authKeyId item_id stores backendOk =
      Except.error "chat 유형의 기억은 삭제할 수 없습니다." ∧
    (∀ (item_type : String) (out : DeleteOutcome),
      delete_memory item_type authKeyId item_id stores backendOk = Except.ok out →
      out.stores.daily = stores.daily ∧
        out.collections ≠ [daily_conversation_collection]) := by
  refine ⟨rfl, ?_⟩
  intro t out hout
  by_cases h1 : t = "chat"
  · rw [h1] at hout; exact absurd hout (by simp [delete_memory])
  · cases hmap : MEMORY_COLLECTION_MAP t with
    | none =>
        rw [delete_memory_none t _ _ _ _ h1 hmap] at hout
        exact absurd hout (by simp)
    | some c =>
        rw [delete_memory_mapped t _ _ _ _ c hmap h1] at hout
        exact absurd hout (by simp)

/-- Witness for C9: the rejection at a concrete chat purge request. -/
theorem chat_purge_rejected_witness :
    delete_memory "chat" "owner1" "conv_1" storesW true =
      Except.error "chat 유형의 기억은 삭제할 수 없습니다." :=
  (chat_purge_rejected "owner1" "conv_1" storesW true).1

/-- Claim C10: for every `memory_type` other than "letter", "keepsake" and
"photo", `_get_store_by_type` falls through to the daily-conversation store,
`store_memory_with_metadata` accepts the record without rejection and
appends it to the daily partition, and the purge endpoint rejects every
deletion request for that type — so such records land in the one collection
this path can never delete from. -/
theorem catch_all_routing (memory_type : String)
    (h1 : memory_type ≠ "letter") (h2 : memory_type ≠ "keepsake")
    (h3 : memory_type ≠ "photo") (stores : Stores) (rec : MemoryRecord) :
    _get_store_by_type memory_type = daily_conversation_collection ∧
    store_memory_with_metadata stores rec memory_type =
      ({ stores with daily := stores.daily ++ [rec] }, "stored",
        daily_conversation_collection) ∧
    (∀ (authKeyId item_id : String) (stores2 : Stores) (backendOk : Bool),
      ∃ e, delete_memory memory_type authKeyId item_id stores2 backendOk =
        Except.error e) := by
  have hg : _get_store_by_type memory_type = daily_conversation_collection := by
    unfold _get_store_by_type
    rw [if_neg h1, if_neg ?_]
    rintro (hk | hp)
    · exact h2 hk
    · exact h3 hp
  refine ⟨hg, ?_, ?_⟩
  · unfold store_memory_with_metadata
    rw [hg, if_neg (by decide), if_neg (by decide)]
  · intro authKeyId item_id stores2 backendOk
    by_cases hc : memory_type = "chat"
    · exact ⟨"chat 유형의 기억은 삭제할 수 없습니다.", by rw [hc]; rfl⟩
    · exact ⟨_, delete_memory_unknown memory_type authKeyId item_id stores2
        backendOk hc h1 h2 h3⟩

/-- Witness for C10 at the unknown type "memo": routed to the daily store,
stored without rejection. -/
theorem catch_all_routing_witness :
    _get_store_by_type "memo" = daily_conversation_collection ∧
    store_memory_with_metadata storesW recBirthday "memo" =
      ({ storesW with daily := storesW.daily ++ [recBirthday] }, "stored",
        daily_conversation_collection) :=
  ⟨(catch_all_routing "memo" (by decide) (by decide) (by decide) storesW recBirthday).1,
   (catch_all_routing "memo" (by decide) (by decide) (by decide) storesW recBirthday).2.1⟩

end Neverland
